import Mathlib

/-!
Shallow embedding of the SLURM pluggable job-accounting dispatch subsystem
(`src/trunk/src/common/slurm_jobacct.c`) and of the timer utilities
(`src/src/common/timers.c`).

The C code manipulates one process-global context pointer
(`g_jobacct_context`) under a single mutex.  The embedding passes the
global explicitly as an `Option Context` and models each facade entry
point as a pure function from an environment (the external collaborators:
configuration lookup, plugin rack, backend operation results) and the
current global to a result record carrying the returned status, the new
global, and a trace of lock / dispatch events.  Lock events let us state
which work happens inside a critical section; dispatch events record the
backend operations actually invoked.

Machine integers: SLURM status codes are small `Int`s; where C truncates
a `long` expression into an `int` (timers) we wrap explicitly modulo
2^32 / 2^64.
-/

namespace SlurmJobacct

/-- SLURM_SUCCESS status code (slurm_errno.h). -/
def SLURM_SUCCESS : Int := 0

/-- SLURM_ERROR status code (slurm_errno.h). -/
def SLURM_ERROR : Int := -1

/-- The fixed, ordered symbol table of `slurm_jobacct.c` (`static const
char *syms[]`); one entry per required backend operation, in the exact
order of the `slurm_jobacct_ops_t` fields. -/
def syms : List String :=
  [ "jobacct_p_init_struct"
  , "jobacct_p_alloc"
  , "jobacct_p_free"
  , "jobacct_p_setinfo"
  , "jobacct_p_getinfo"
  , "jobacct_p_aggregate"
  , "jobacct_p_pack"
  , "jobacct_p_unpack"
  , "jobacct_p_init_slurmctld"
  , "jobacct_p_fini_slurmctld"
  , "jobacct_p_job_start_slurmctld"
  , "jobacct_p_job_complete_slurmctld"
  , "jobacct_p_step_start_slurmctld"
  , "jobacct_p_step_complete_slurmctld"
  , "jobacct_p_suspend_slurmctld"
  , "jobacct_p_startpoll"
  , "jobacct_p_endpoll"
  , "jobacct_p_suspendpoll" ]

/-- `n_syms = sizeof(syms)/sizeof(char *)` in `_slurm_jobacct_get_ops`. -/
def n_syms : Nat := syms.length

/-- A C string reference: an address plus the pointed-to characters.
The address lets us state aliasing facts (`xstrdup` allocates a fresh
address). -/
structure StrRef where
  addr : Nat
  val : String
deriving DecidableEq, Repr

/-- `struct slurm_jobacct_context`.  `plugin_list` records whether a
plugrack was created (`c->plugin_list != NULL`); `cur_plugin` whether a
plugin handle other than `PLUGIN_INVALID_HANDLE` is held; `opsCount` how
many of the `n_syms` operation slots `plugin_get_syms` resolved into
`c->ops`. -/
structure Context where
  jobacct_type : StrRef
  plugin_list : Bool
  cur_plugin : Bool
  jobacct_errno : Int
  opsCount : Nat
deriving DecidableEq, Repr

/-- The external collaborators of the dispatch layer, fixed for one call:
configuration (`slurm_get_jobacct_type`, possibly NULL), the allocator's
next fresh address (for `xstrdup`), the plugin rack's behaviour
(`plugrack_create`, `plugrack_use_by_type`, `plugin_get_syms`,
`plugrack_destroy`), and the return statuses of the backend's own
operations, keyed by plugin symbol name. -/
structure Env where
  jobacctType : Option StrRef
  freshAddr : Nat
  plugrackCreateOk : Bool
  pluginFound : Bool
  symsResolved : Nat
  plugrackDestroyOk : Bool
  opRet : String → Int
  opAlloc : Option Nat

/-- Events observable during one facade call: acquisitions and releases
of the single `g_jobacct_context_lock`, and invocations of a resolved
backend operation (named by its plugin symbol). -/
inductive Ev where
  | lock : Ev
  | unlock : Ev
  | dispatch : String → Ev
deriving DecidableEq, Repr

/-- `_slurm_jobacct_context_create`: fails only when the supplied type
pointer is NULL; otherwise allocates a context holding an `xstrdup` copy
of the type string at the allocator's fresh address.  (In this SLURM
tree `xstrdup` of a non-NULL string never returns NULL — `xmalloc`
aborts on exhaustion — so the source's second NULL check is dead.) -/
def _slurm_jobacct_context_create (jobacct_type : Option StrRef) (fresh : Nat) :
    Option Context :=
  match jobacct_type with
  | none => none
  | some r =>
      some { jobacct_type := ⟨fresh, r.val⟩
             plugin_list := false
             cur_plugin := false
             jobacct_errno := SLURM_SUCCESS
             opsCount := 0 }

/-- Result of `_slurm_jobacct_context_destroy`: the returned status and
whether `xfree(c->jobacct_type)` / `xfree(c)` were reached. -/
structure DestroyRes where
  rc : Int
  freedType : Bool
  freedCtx : Bool
deriving DecidableEq, Repr

/-- `_slurm_jobacct_context_destroy`: if a plugrack exists and
`plugrack_destroy` fails, returns SLURM_ERROR at once — the two `xfree`
calls below the check are not reached.  Otherwise frees the type copy
and the record and returns SLURM_SUCCESS. -/
def _slurm_jobacct_context_destroy (env : Env) (c : Context) : DestroyRes :=
  if c.plugin_list && !env.plugrackDestroyOk then
    { rc := SLURM_ERROR, freedType := false, freedCtx := false }
  else
    { rc := SLURM_SUCCESS, freedType := true, freedCtx := true }

/-- Result of `_slurm_jobacct_get_ops`: the mutated context and whether a
non-NULL ops pointer was returned. -/
structure GetOpsRes where
  c : Context
  ok : Bool
deriving DecidableEq, Repr

/-- `_slurm_jobacct_get_ops`: demand-creates the plugrack, looks the
plugin up by type, and resolves the `n_syms` symbols; returns NULL
(ok = false) when rack creation fails, no plugin matches, or
`plugin_get_syms` resolves fewer than `n_syms` symbols.  `opsCount`
records how many slots were actually written. -/
def _slurm_jobacct_get_ops (env : Env) (c : Context) : GetOpsRes :=
  if !c.plugin_list && !env.plugrackCreateOk then
    { c := c, ok := false }
  else
    let c1 := { c with plugin_list := true }
    if !env.pluginFound then
      { c := { c1 with cur_plugin := false }, ok := false }
    else
      let c2 := { c1 with cur_plugin := true
                          opsCount := min env.symsResolved n_syms }
      if min env.symsResolved n_syms < n_syms then
        { c := c2, ok := false }
      else
        { c := c2, ok := true }

/-- Result of `_slurm_jobacct_init`: returned status, new global context,
and the lock events of its single critical section. -/
structure InitRes where
  retval : Int
  g : Option Context
  events : List Ev
deriving Repr

/-- Status and new global computed by `_slurm_jobacct_init` inside its
critical section: if a context already exists, success; otherwise read
the configured type, create a context, resolve the ops; on any failure
destroy the half-built context and leave the global NULL. -/
def _slurm_jobacct_init_core (env : Env) (g : Option Context) :
    Int × Option Context :=
  match g with
  | some c => (SLURM_SUCCESS, some c)
  | none =>
    match _slurm_jobacct_context_create env.jobacctType env.freshAddr with
    | none => (SLURM_ERROR, none)
    | some c =>
      let r := _slurm_jobacct_get_ops env c
      if r.ok then (SLURM_SUCCESS, some r.c)
      else (SLURM_ERROR, none)

/-- `_slurm_jobacct_init`: the whole body runs between one
`slurm_mutex_lock` and one `slurm_mutex_unlock` (the `done:` label). -/
def _slurm_jobacct_init (env : Env) (g : Option Context) : InitRes :=
  let core := _slurm_jobacct_init_core env g
  { retval := core.1, g := core.2, events := [Ev.lock, Ev.unlock] }

/-- Result of `_slurm_jobacct_fini`: returned status and new global. -/
structure FiniRes where
  rc : Int
  g : Option Context
deriving Repr

/-- `_slurm_jobacct_fini`: success if no context; otherwise destroy the
context and set the global to NULL unconditionally, returning the
destroy status. -/
def _slurm_jobacct_fini (env : Env) (g : Option Context) : FiniRes :=
  match g with
  | none => { rc := SLURM_SUCCESS, g := none }
  | some c => { rc := (_slurm_jobacct_context_destroy env c).rc, g := none }

/-- Result of an int-returning facade entry point: the returned status,
the global context after the call, and the lock / dispatch trace.
Opaque record / job / step / buffer arguments never influence the
dispatch layer itself (they are forwarded to the backend verbatim), so
they are not threaded through the embedding; the backend's status for
each operation comes from `Env.opRet`. -/
structure RunI where
  retval : Int
  g : Option Context
  events : List Ev
deriving Repr

/-- Result of a void facade entry point. -/
structure RunV where
  g : Option Context
  events : List Ev
deriving Repr

/-- Result of `jobacct_g_alloc` (returns a record pointer or NULL). -/
structure RunA where
  ret : Option Nat
  g : Option Context
  events : List Ev
deriving Repr

/-- `jobacct_g_init_struct`: attempts lazy initialization, returns
SLURM_ERROR if it failed, then locks and dispatches
`jobacct_p_init_struct` if a context exists. -/
def jobacct_g_init_struct (env : Env) (g : Option Context) : RunI :=
  let i := _slurm_jobacct_init env g
  if i.retval < 0 then
    { retval := SLURM_ERROR, g := i.g, events := i.events }
  else
    match i.g with
    | some c =>
        { retval := env.opRet "jobacct_p_init_struct", g := some c
          events := i.events ++ [Ev.lock, Ev.dispatch "jobacct_p_init_struct", Ev.unlock] }
    | none =>
        { retval := SLURM_SUCCESS, g := none
          events := i.events ++ [Ev.lock, Ev.unlock] }

/-- `jobacct_g_alloc`: attempts lazy initialization, returns NULL if it
failed, then locks and dispatches `jobacct_p_alloc` if a context
exists. -/
def jobacct_g_alloc (env : Env) (g : Option Context) : RunA :=
  let i := _slurm_jobacct_init env g
  if i.retval < 0 then
    { ret := none, g := i.g, events := i.events }
  else
    match i.g with
    | some c =>
        { ret := env.opAlloc, g := some c
          events := i.events ++ [Ev.lock, Ev.dispatch "jobacct_p_alloc", Ev.unlock] }
    | none =>
        { ret := none, g := none
          events := i.events ++ [Ev.lock, Ev.unlock] }

/-- `jobacct_g_free`: no initialization attempt; locks, dispatches
`jobacct_p_free` only if a context already exists, else leaves the
preset SLURM_SUCCESS. -/
def jobacct_g_free (env : Env) (g : Option Context) : RunI :=
  match g with
  | some c =>
      { retval := env.opRet "jobacct_p_free", g := some c
        events := [Ev.lock, Ev.dispatch "jobacct_p_free", Ev.unlock] }
  | none =>
      { retval := SLURM_SUCCESS, g := none, events := [Ev.lock, Ev.unlock] }

/-- `jobacct_g_setinfo`: no initialization attempt; dispatches
`jobacct_p_setinfo` only if a context already exists, else returns the
preset SLURM_SUCCESS. -/
def jobacct_g_setinfo (env : Env) (g : Option Context) : RunI :=
  match g with
  | some c =>
      { retval := env.opRet "jobacct_p_setinfo", g := some c
        events := [Ev.lock, Ev.dispatch "jobacct_p_setinfo", Ev.unlock] }
  | none =>
      { retval := SLURM_SUCCESS, g := none, events := [Ev.lock, Ev.unlock] }

/-- `jobacct_g_getinfo`: no initialization attempt; dispatches
`jobacct_p_getinfo` only if a context already exists, else returns the
preset SLURM_SUCCESS. -/
def jobacct_g_getinfo (env : Env) (g : Option Context) : RunI :=
  match g with
  | some c =>
      { retval := env.opRet "jobacct_p_getinfo", g := some c
        events := [Ev.lock, Ev.dispatch "jobacct_p_getinfo", Ev.unlock] }
  | none =>
      { retval := SLURM_SUCCESS, g := none, events := [Ev.lock, Ev.unlock] }

/-- `jobacct_g_aggregate` (void): no initialization attempt; dispatches
`jobacct_p_aggregate` only if a context already exists. -/
def jobacct_g_aggregate (_env : Env) (g : Option Context) : RunV :=
  match g with
  | some c =>
      { g := some c, events := [Ev.lock, Ev.dispatch "jobacct_p_aggregate", Ev.unlock] }
  | none => { g := none, events := [Ev.lock, Ev.unlock] }

/-- `jobacct_g_pack` (void): no initialization attempt; dispatches
`jobacct_p_pack` only if a context already exists. -/
def jobacct_g_pack (_env : Env) (g : Option Context) : RunV :=
  match g with
  | some c =>
      { g := some c, events := [Ev.lock, Ev.dispatch "jobacct_p_pack", Ev.unlock] }
  | none => { g := none, events := [Ev.lock, Ev.unlock] }

/-- `jobacct_g_unpack`: no initialization attempt; dispatches
`jobacct_p_unpack` only if a context already exists, else returns the
preset SLURM_SUCCESS. -/
def jobacct_g_unpack (env : Env) (g : Option Context) : RunI :=
  match g with
  | some c =>
      { retval := env.opRet "jobacct_p_unpack", g := some c
        events := [Ev.lock, Ev.dispatch "jobacct_p_unpack", Ev.unlock] }
  | none =>
      { retval := SLURM_SUCCESS, g := none, events := [Ev.lock, Ev.unlock] }

/-- `jobacct_g_init_slurmctld`: attempts lazy initialization, returns
SLURM_ERROR if it failed, then dispatches `jobacct_p_init_slurmctld` if
a context exists. -/
def jobacct_g_init_slurmctld (env : Env) (g : Option Context) : RunI :=
  let i := _slurm_jobacct_init env g
  if i.retval < 0 then
    { retval := SLURM_ERROR, g := i.g, events := i.events }
  else
    match i.g with
    | some c =>
        { retval := env.opRet "jobacct_p_init_slurmctld", g := some c
          events := i.events ++ [Ev.lock, Ev.dispatch "jobacct_p_init_slurmctld", Ev.unlock] }
    | none =>
        { retval := SLURM_SUCCESS, g := none
          events := i.events ++ [Ev.lock, Ev.unlock] }

/-- `jobacct_g_fini_slurmctld`: locked dispatch of
`jobacct_p_fini_slurmctld` if a context exists, then (outside the lock)
`_slurm_jobacct_fini`, whose failure turns the return into SLURM_ERROR;
the global is NULL afterwards either way. -/
def jobacct_g_fini_slurmctld (env : Env) (g : Option Context) : RunI :=
  let retval := match g with
    | some _ => env.opRet "jobacct_p_fini_slurmctld"
    | none => SLURM_SUCCESS
  let ev := match g with
    | some _ => [Ev.lock, Ev.dispatch "jobacct_p_fini_slurmctld", Ev.unlock]
    | none => [Ev.lock, Ev.unlock]
  let f := _slurm_jobacct_fini env g
  if f.rc < 0 then { retval := SLURM_ERROR, g := f.g, events := ev }
  else { retval := retval, g := f.g, events := ev }

/-- `jobacct_g_job_start_slurmctld`: no initialization attempt;
dispatches `jobacct_p_job_start_slurmctld` only if a context already
exists, else returns the preset SLURM_SUCCESS. -/
def jobacct_g_job_start_slurmctld (env : Env) (g : Option Context) : RunI :=
  match g with
  | some c =>
      { retval := env.opRet "jobacct_p_job_start_slurmctld", g := some c
        events := [Ev.lock, Ev.dispatch "jobacct_p_job_start_slurmctld", Ev.unlock] }
  | none =>
      { retval := SLURM_SUCCESS, g := none, events := [Ev.lock, Ev.unlock] }

/-- `jobacct_g_job_complete_slurmctld`: no initialization attempt;
dispatches only if a context already exists. -/
def jobacct_g_job_complete_slurmctld (env : Env) (g : Option Context) : RunI :=
  match g with
  | some c =>
      { retval := env.opRet "jobacct_p_job_complete_slurmctld", g := some c
        events := [Ev.lock, Ev.dispatch "jobacct_p_job_complete_slurmctld", Ev.unlock] }
  | none =>
      { retval := SLURM_SUCCESS, g := none, events := [Ev.lock, Ev.unlock] }

/-- `jobacct_g_step_start_slurmctld`: no initialization attempt;
dispatches only if a context already exists. -/
def jobacct_g_step_start_slurmctld (env : Env) (g : Option Context) : RunI :=
  match g with
  | some c =>
      { retval := env.opRet "jobacct_p_step_start_slurmctld", g := some c
        events := [Ev.lock, Ev.dispatch "jobacct_p_step_start_slurmctld", Ev.unlock] }
  | none =>
      { retval := SLURM_SUCCESS, g := none, events := [Ev.lock, Ev.unlock] }

/-- `jobacct_g_step_complete_slurmctld`: no initialization attempt;
dispatches only if a context already exists. -/
def jobacct_g_step_complete_slurmctld (env : Env) (g : Option Context) : RunI :=
  match g with
  | some c =>
      { retval := env.opRet "jobacct_p_step_complete_slurmctld", g := some c
        events := [Ev.lock, Ev.dispatch "jobacct_p_step_complete_slurmctld", Ev.unlock] }
  | none =>
      { retval := SLURM_SUCCESS, g := none, events := [Ev.lock, Ev.unlock] }

/-- `jobacct_g_suspend_slurmctld`: no initialization attempt; dispatches
only if a context already exists. -/
def jobacct_g_suspend_slurmctld (env : Env) (g : Option Context) : RunI :=
  match g with
  | some c =>
      { retval := env.opRet "jobacct_p_suspend_slurmctld", g := some c
        events := [Ev.lock, Ev.dispatch "jobacct_p_suspend_slurmctld", Ev.unlock] }
  | none =>
      { retval := SLURM_SUCCESS, g := none, events := [Ev.lock, Ev.unlock] }

/-- `jobacct_g_startpoll`: attempts lazy initialization, returns
SLURM_ERROR if it failed, then dispatches `jobacct_p_startpoll` if a
context exists. -/
def jobacct_g_startpoll (env : Env) (g : Option Context) : RunI :=
  let i := _slurm_jobacct_init env g
  if i.retval < 0 then
    { retval := SLURM_ERROR, g := i.g, events := i.events }
  else
    match i.g with
    | some c =>
        { retval := env.opRet "jobacct_p_startpoll", g := some c
          events := i.events ++ [Ev.lock, Ev.dispatch "jobacct_p_startpoll", Ev.unlock] }
    | none =>
        { retval := SLURM_SUCCESS, g := none
          events := i.events ++ [Ev.lock, Ev.unlock] }

/-- `jobacct_g_endpoll`: no initialization attempt; dispatches only if a
context already exists. -/
def jobacct_g_endpoll (env : Env) (g : Option Context) : RunI :=
  match g with
  | some c =>
      { retval := env.opRet "jobacct_p_endpoll", g := some c
        events := [Ev.lock, Ev.dispatch "jobacct_p_endpoll", Ev.unlock] }
  | none =>
      { retval := SLURM_SUCCESS, g := none, events := [Ev.lock, Ev.unlock] }

/-- `jobacct_g_suspendpoll` (void): no initialization attempt; dispatches
only if a context already exists. -/
def jobacct_g_suspendpoll (_env : Env) (g : Option Context) : RunV :=
  match g with
  | some c =>
      { g := some c, events := [Ev.lock, Ev.dispatch "jobacct_p_suspendpoll", Ev.unlock] }
  | none => { g := none, events := [Ev.lock, Ev.unlock] }

/-- Lock-depth change contributed by one event. -/
def evDelta : Ev → Int
  | Ev.lock => 1
  | Ev.unlock => -1
  | Ev.dispatch _ => 0

/-- Starting from lock depth `d`: every dispatch happens at depth ≥ 1,
every unlock matches a held lock, and the trace ends at depth 0. -/
def lockOk (d : Int) : List Ev → Bool
  | [] => decide (d = 0)
  | e :: t =>
    (match e with
     | Ev.dispatch _ => decide (1 ≤ d)
     | Ev.unlock => decide (1 ≤ d)
     | Ev.lock => true) && lockOk (d + evDelta e) t

/-- Starting from lock depth `d`: true when the lock depth returns to 0
strictly inside the trace (i.e. the lock is released before the call's
last event), so the call is not one single critical section. -/
def interiorRelease (d : Int) : List Ev → Bool
  | [] => false
  | [_] => false
  | e :: t => decide (d + evDelta e = 0) || interiorRelease (d + evDelta e) t

/-- True when the trace invokes no backend operation. -/
def noDispatch (t : List Ev) : Bool :=
  !(t.any fun e => match e with | Ev.dispatch _ => true | _ => false)

/-- A concrete environment in which initialization succeeds: a configured
type, a working plugrack, a matching plugin, all 18 symbols resolved. -/
def envOk : Env :=
  { jobacctType := some ⟨0, "jobacct/log"⟩
    freshAddr := 1
    plugrackCreateOk := true
    pluginFound := true
    symsResolved := 18
    plugrackDestroyOk := true
    opRet := fun _ => 0
    opAlloc := some 1 }

/-- A concrete environment whose plugin resolves only 17 of 18 symbols. -/
def envPartial : Env :=
  { envOk with symsResolved := 17 }

/-- A concrete environment in which `plugrack_destroy` fails. -/
def envBadDestroy : Env :=
  { envOk with plugrackDestroyOk := false }

/-- A concrete fully-resolved context that owns a plugrack. -/
def ctxRack : Context :=
  { jobacct_type := ⟨1, "jobacct/log"⟩
    plugin_list := true
    cur_plugin := true
    jobacct_errno := 0
    opsCount := 18 }

end SlurmJobacct

namespace SlurmTimers

/-- `struct timeval`: seconds and microseconds, both C `long`s on the
target platform. -/
structure Timeval where
  tv_sec : Int
  tv_usec : Int
deriving DecidableEq, Repr

/-- Two's-complement wrap of a C 64-bit `long` arithmetic result
(the numerals are 2^63 and 2^64). -/
def wrap64 (x : Int) : Int :=
  (x + 9223372036854775808) % 18446744073709551616 - 9223372036854775808

/-- Two's-complement wrap of a conversion / arithmetic result into a C
32-bit `int` (the numerals are 2^31 and 2^32). -/
def wrap32 (x : Int) : Int :=
  (x + 2147483648) % 4294967296 - 2147483648

/-- `snprintf(buf, len, ...)` semantics for the formatted string `s`:
at most `len - 1` characters are stored (NUL-terminated); with
`len <= 0` nothing is stored. -/
def snprintfTrunc (len : Int) (s : String) : String :=
  if len ≤ 0 then "" else s.take (len - 1).toNat

/-- Log records emitted by the diff-string helpers: the `verbose` warning
past the hard limit, or the `debug` note past the soft limit.  The
appended time-of-day rendering (`time(NULL)` / `localtime_r` /
`strftime`) is an external effect and is not modelled. -/
inductive LogEv where
  | verboseLarge (src : String) (tvStr : String) : LogEv
  | debugLarge (src : String) (tvStr : String) : LogEv
deriving DecidableEq, Repr

/-- Result of the diff-string helpers: the value stored in `*delta_t`,
the string stored in `tv_str`, and the log records emitted. -/
structure DiffRes where
  delta_t : Int
  tv_str : String
  logs : List LogEv
deriving DecidableEq, Repr

/-- The `*delta_t` computation shared by `slurm_timer_diff_tv_str` and
`slurm_diff_tv_str`, with `long` arithmetic wrapped after each C
operation: `(tv2->tv_sec - tv1->tv_sec) * 1000000`, then
`+= tv2->tv_usec`, then `-= tv1->tv_usec`. -/
def diffDelta (tv1 tv2 : Timeval) : Int :=
  wrap64 (wrap64 (wrap64 (wrap64 (tv2.tv_sec - tv1.tv_sec) * 1000000) + tv2.tv_usec)
    - tv1.tv_usec)

/-- `slurm_timer_diff_tv_str`: stores the delta, formats `"usec=%ld"`
into `tv_str` (with `snprintf` truncation), and — only when `src`
(the `from` argument) is non-NULL — applies the default limits
(3000000 hard / 1000000 soft when `limit` is 0) and emits at most one
log record.  `src` and `limit` influence nothing but the logs. -/
def slurm_timer_diff_tv_str (tv1 tv2 : Timeval) (len_tv_str : Int)
    (src : Option String) (limit : Int) : DiffRes :=
  let delta := diffDelta tv1 tv2
  let tvStr := snprintfTrunc len_tv_str ("usec=" ++ toString delta)
  let logs : List LogEv :=
    match src with
    | none => []
    | some f =>
      let lim := if limit = 0 then 3000000 else limit
      let dbgLim := if limit = 0 then 1000000 else limit
      if delta > dbgLim || delta > lim then
        if delta > lim then [LogEv.verboseLarge f tvStr]
        else [LogEv.debugLarge f tvStr]
      else []
  { delta_t := delta, tv_str := tvStr, logs := logs }

/-- `slurm_diff_tv_str`: identical delta computation, formatting,
truncation, default limits and log policy as `slurm_timer_diff_tv_str`
(the two differ only in how the unmodelled time-of-day suffix of the
log text is obtained). -/
def slurm_diff_tv_str (tv1 tv2 : Timeval) (len_tv_str : Int)
    (src : Option String) (limit : Int) : DiffRes :=
  let delta := diffDelta tv1 tv2
  let tvStr := snprintfTrunc len_tv_str ("usec=" ++ toString delta)
  let logs : List LogEv :=
    match src with
    | none => []
    | some f =>
      let lim := if limit = 0 then 3000000 else limit
      let dbgLim := if limit = 0 then 1000000 else limit
      if delta > dbgLim || delta > lim then
        if delta > lim then [LogEv.verboseLarge f tvStr]
        else [LogEv.debugLarge f tvStr]
      else []
  { delta_t := delta, tv_str := tvStr, logs := logs }

/-- A `timeval` actually producible by the modelled time sources:
non-negative seconds below 2^33 (comfortably past any reachable
monotonic or wall-clock second count in a 64-bit `time_t`, yet small
enough that microsecond arithmetic cannot overflow a `long`) and a
microsecond field in [0, 1000000). -/
abbrev ValidTimeval (tv : Timeval) : Prop :=
  0 ≤ tv.tv_sec ∧ tv.tv_sec < 8589934592 ∧ 0 ≤ tv.tv_usec ∧ tv.tv_usec < 1000000

/-- Result of the delta helpers: the returned `int` and the (possibly
updated) contents of the INOUT `tv` argument. -/
structure DeltaRes where
  ret : Int
  tv : Timeval
deriving DecidableEq, Repr

/-- `slurm_timer_delta_tv`.  `nowOpt` models the outcome of
`slurm_timer_gettime` (`none` = clock failure, return 1, `tv`
untouched).  If `tv->tv_sec == 0`, the current time is stored into `tv`
and 0 is returned; otherwise the microsecond delta is computed in
`long` arithmetic and truncated into the `int` variable `delta_t`. -/
def slurm_timer_delta_tv (nowOpt : Option Timeval) (tv : Timeval) : DeltaRes :=
  match nowOpt with
  | none => { ret := 1, tv := tv }
  | some now =>
    if tv.tv_sec = 0 then
      { ret := 0, tv := ⟨now.tv_sec, now.tv_usec⟩ }
    else
      let d0 := wrap32 (wrap64 (wrap64 (now.tv_sec - tv.tv_sec) * 1000000))
      let d1 := wrap32 (d0 + wrap64 (now.tv_usec - tv.tv_usec))
      { ret := d1, tv := tv }

/-- `slurm_delta_tv`: same body as `slurm_timer_delta_tv`, with `nowOpt`
modelling `gettimeofday` instead of the monotonic source. -/
def slurm_delta_tv (nowOpt : Option Timeval) (tv : Timeval) : DeltaRes :=
  match nowOpt with
  | none => { ret := 1, tv := tv }
  | some now =>
    if tv.tv_sec = 0 then
      { ret := 0, tv := ⟨now.tv_sec, now.tv_usec⟩ }
    else
      let d0 := wrap32 (wrap64 (wrap64 (now.tv_sec - tv.tv_sec) * 1000000))
      let d1 := wrap32 (d0 + wrap64 (now.tv_usec - tv.tv_usec))
      { ret := d1, tv := tv }

end SlurmTimers

namespace SlurmJobacct

/-- `_slurm_jobacct_init` is exactly one critical section. -/
theorem init_events_eq (env : Env) (g : Option Context) :
    (_slurm_jobacct_init env g).events = [Ev.lock, Ev.unlock] := rfl

/-- `_slurm_jobacct_fini` always leaves the global NULL. -/
theorem fini_g_eq (env : Env) (g : Option Context) :
    (_slurm_jobacct_fini env g).g = none := by
  cases g <;> rfl

/-- `jobacct_g_fini_slurmctld` always leaves the global NULL. -/
theorem fini_slurmctld_g_eq (env : Env) (g : Option Context) :
    (jobacct_g_fini_slurmctld env g).g = none := by
  simp only [jobacct_g_fini_slurmctld]
  split <;> exact fini_g_eq env g

/-- `jobacct_g_init_struct` leaves exactly the global that
`_slurm_jobacct_init` produced. -/
theorem init_struct_g_eq (env : Env) (g : Option Context) :
    (jobacct_g_init_struct env g).g = (_slurm_jobacct_init env g).g := by
  simp only [jobacct_g_init_struct]
  split
  · rfl
  · split <;> rename_i h <;> simp [h]

/-- `jobacct_g_alloc` leaves exactly the global that
`_slurm_jobacct_init` produced. -/
theorem alloc_g_eq (env : Env) (g : Option Context) :
    (jobacct_g_alloc env g).g = (_slurm_jobacct_init env g).g := by
  simp only [jobacct_g_alloc]
  split
  · rfl
  · split <;> rename_i h <;> simp [h]

/-- `jobacct_g_init_slurmctld` leaves exactly the global that
`_slurm_jobacct_init` produced. -/
theorem init_slurmctld_g_eq (env : Env) (g : Option Context) :
    (jobacct_g_init_slurmctld env g).g = (_slurm_jobacct_init env g).g := by
  simp only [jobacct_g_init_slurmctld]
  split
  · rfl
  · split <;> rename_i h <;> simp [h]

/-- `jobacct_g_startpoll` leaves exactly the global that
`_slurm_jobacct_init` produced. -/
theorem startpoll_g_eq (env : Env) (g : Option Context) :
    (jobacct_g_startpoll env g).g = (_slurm_jobacct_init env g).g := by
  simp only [jobacct_g_startpoll]
  split
  · rfl
  · split <;> rename_i h <;> simp [h]

/-- C1.  The claim says `jobacct_g_free` / `jobacct_g_setinfo` /
`jobacct_g_getinfo` / `jobacct_g_unpack`, called while no context
exists, return `NoContextError` rather than success.  In fact all four
leave their preset `SLURM_SUCCESS` untouched when the global is NULL:
the success status is returned, refuting the claim. -/
theorem claim_c1_cex :
    (jobacct_g_free envOk none).retval = SLURM_SUCCESS ∧
    (jobacct_g_setinfo envOk none).retval = SLURM_SUCCESS ∧
    (jobacct_g_getinfo envOk none).retval = SLURM_SUCCESS ∧
    (jobacct_g_unpack envOk none).retval = SLURM_SUCCESS ∧
    SLURM_SUCCESS ≠ SLURM_ERROR :=
  ⟨rfl, rfl, rfl, rfl, by decide⟩

/-- C1 (amended).  For every environment, the record-management and
deserialization entry points `jobacct_g_free`, `jobacct_g_setinfo`,
`jobacct_g_getinfo` and `jobacct_g_unpack` invoked while no Backend
Context exists return `SLURM_SUCCESS`, leave the global NULL, and
invoke no backend operation — a silent no-op, not an error. -/
theorem claim_c1 (env : Env) :
    (jobacct_g_free env none).retval = SLURM_SUCCESS ∧
    (jobacct_g_free env none).g = none ∧
    noDispatch (jobacct_g_free env none).events = true ∧
    (jobacct_g_setinfo env none).retval = SLURM_SUCCESS ∧
    (jobacct_g_setinfo env none).g = none ∧
    noDispatch (jobacct_g_setinfo env none).events = true ∧
    (jobacct_g_getinfo env none).retval = SLURM_SUCCESS ∧
    (jobacct_g_getinfo env none).g = none ∧
    noDispatch (jobacct_g_getinfo env none).events = true ∧
    (jobacct_g_unpack env none).retval = SLURM_SUCCESS ∧
    (jobacct_g_unpack env none).g = none ∧
    noDispatch (jobacct_g_unpack env none).events = true :=
  ⟨rfl, rfl, rfl, rfl, rfl, rfl, rfl, rfl, rfl, rfl, rfl, rfl⟩

/-- C3.  After any call to `jobacct_g_fini_slurmctld` the global context
is NULL — for every environment, in particular when the backend's own
finalize operation reports failure and when `plugrack_destroy` fails —
and a subsequent lazily-initializing call behaves exactly as it would
from the never-initialized state. -/
theorem claim_c3 (env envB : Env) (g : Option Context) :
    (jobacct_g_fini_slurmctld env g).g = none ∧
    _slurm_jobacct_init envB ((jobacct_g_fini_slurmctld env g).g)
      = _slurm_jobacct_init envB none ∧
    jobacct_g_init_struct envB ((jobacct_g_fini_slurmctld env g).g)
      = jobacct_g_init_struct envB none := by
  have h := fini_slurmctld_g_eq env g
  exact ⟨h, by rw [h], by rw [h]⟩

/-- C6.  Every lifecycle-notification entry point (job start, job
complete, step start, step complete, suspend) called while no Backend
Context exists returns `SLURM_SUCCESS`, leaves the global NULL, and
invokes no backend operation. -/
theorem claim_c6 (env : Env) :
    (jobacct_g_job_start_slurmctld env none).retval = SLURM_SUCCESS ∧
    (jobacct_g_job_start_slurmctld env none).g = none ∧
    noDispatch (jobacct_g_job_start_slurmctld env none).events = true ∧
    (jobacct_g_job_complete_slurmctld env none).retval = SLURM_SUCCESS ∧
    (jobacct_g_job_complete_slurmctld env none).g = none ∧
    noDispatch (jobacct_g_job_complete_slurmctld env none).events = true ∧
    (jobacct_g_step_start_slurmctld env none).retval = SLURM_SUCCESS ∧
    (jobacct_g_step_start_slurmctld env none).g = none ∧
    noDispatch (jobacct_g_step_start_slurmctld env none).events = true ∧
    (jobacct_g_step_complete_slurmctld env none).retval = SLURM_SUCCESS ∧
    (jobacct_g_step_complete_slurmctld env none).g = none ∧
    noDispatch (jobacct_g_step_complete_slurmctld env none).events = true ∧
    (jobacct_g_suspend_slurmctld env none).retval = SLURM_SUCCESS ∧
    (jobacct_g_suspend_slurmctld env none).g = none ∧
    noDispatch (jobacct_g_suspend_slurmctld env none).events = true :=
  ⟨rfl, rfl, rfl, rfl, rfl, rfl, rfl, rfl, rfl, rfl, rfl, rfl, rfl, rfl, rfl⟩

/-- C7.  The claim says context creation fails whenever the supplied
type name is empty or unset.  In fact `_slurm_jobacct_context_create`
checks only for a NULL pointer: with the empty string it succeeds and
returns a context. -/
theorem claim_c7_cex :
    (⟨5, ""⟩ : StrRef).val = "" ∧
    _slurm_jobacct_context_create (some ⟨5, ""⟩) 7 ≠ none := by
  exact ⟨rfl, by decide⟩

/-- C7 (amended).  `_slurm_jobacct_context_create` fails exactly when the
supplied type pointer is unset (NULL) — an empty string is accepted —
and on success the context stores a copy of the type string allocated at
the allocator's fresh address, so it never aliases the caller-supplied
string (a fresh allocation is distinct from every live address). -/
theorem claim_c7 (r : StrRef) (fresh : Nat) :
    _slurm_jobacct_context_create none fresh = none ∧
    (_slurm_jobacct_context_create (some r) fresh).map
        (fun c => (c.jobacct_type.addr, c.jobacct_type.val))
      = some (fresh, r.val) :=
  ⟨rfl, rfl⟩

/-- When fewer than `n_syms` symbols resolve (and on every other failure
path), `_slurm_jobacct_get_ops` returns NULL. -/
theorem get_ops_fail_when_incomplete (env : Env) (c : Context)
    (h : env.symsResolved < 18) :
    (_slurm_jobacct_get_ops env c).ok = false := by
  have hn : n_syms = 18 := rfl
  simp only [_slurm_jobacct_get_ops]
  split
  · rfl
  · split
    · rfl
    · split
      · rfl
      · rename_i hge
        rw [hn] at hge
        omega

/-- A failed symbol resolution makes `_slurm_jobacct_init` fail and
leave the global NULL. -/
theorem init_fail_when_incomplete (env : Env) (h : env.symsResolved < 18) :
    _slurm_jobacct_init env none
      = { retval := SLURM_ERROR, g := none, events := [Ev.lock, Ev.unlock] } := by
  have hcore : _slurm_jobacct_init_core env none = (SLURM_ERROR, none) := by
    simp only [_slurm_jobacct_init_core]
    cases hjt : _slurm_jobacct_context_create env.jobacctType env.freshAddr with
    | none => rfl
    | some c => simp [get_ops_fail_when_incomplete env c h]
  simp [_slurm_jobacct_init, hcore]

/-- C2.  A backend resolving fewer than the 18 required operation names
(the full length of `syms`) makes initialization return `SLURM_ERROR`
with no context installed; a later facade call from that state behaves
exactly as from the never-initialized state (it re-attempts
initialization from scratch), and can never dispatch through a
half-built operation table (no backend dispatch occurs from the empty
global). -/
theorem claim_c2 (env envB : Env) (h : env.symsResolved < 18) :
    syms.length = 18 ∧
    (_slurm_jobacct_init env none).retval = SLURM_ERROR ∧
    (_slurm_jobacct_init env none).g = none ∧
    jobacct_g_init_struct envB ((_slurm_jobacct_init env none).g)
      = jobacct_g_init_struct envB none ∧
    jobacct_g_startpoll envB ((_slurm_jobacct_init env none).g)
      = jobacct_g_startpoll envB none ∧
    noDispatch (jobacct_g_setinfo envB ((_slurm_jobacct_init env none).g)).events
      = true := by
  have hi := init_fail_when_incomplete env h
  refine ⟨rfl, ?_, ?_, ?_, ?_, ?_⟩ <;> (rw [hi]; try rfl)

/-- C2 witness: a plugin exposing only 17 of the 18 symbols. -/
theorem claim_c2_witness :
    envPartial.symsResolved < 18 ∧
    (syms.length = 18 ∧
     (_slurm_jobacct_init envPartial none).retval = SLURM_ERROR ∧
     (_slurm_jobacct_init envPartial none).g = none ∧
     jobacct_g_init_struct envOk ((_slurm_jobacct_init envPartial none).g)
       = jobacct_g_init_struct envOk none ∧
     jobacct_g_startpoll envOk ((_slurm_jobacct_init envPartial none).g)
       = jobacct_g_startpoll envOk none ∧
     noDispatch (jobacct_g_setinfo envOk
         ((_slurm_jobacct_init envPartial none).g)).events = true) :=
  ⟨by decide, claim_c2 envPartial envOk (by decide)⟩

/-- C4.  The claim says every facade entry point attempts lazy
initialization when no context exists.  In `envOk` initialization
succeeds and installs a context, yet `jobacct_g_free` (and likewise
`jobacct_g_job_start_slurmctld`, both cited by the claim) called on the
empty global leaves it empty and dispatches nothing: no initialization
was attempted. -/
theorem claim_c4_cex :
    ((_slurm_jobacct_init envOk none).g).isSome = true ∧
    (jobacct_g_free envOk none).g = none ∧
    noDispatch (jobacct_g_free envOk none).events = true ∧
    (jobacct_g_job_start_slurmctld envOk none).g = none ∧
    noDispatch (jobacct_g_job_start_slurmctld envOk none).events = true := by
  refine ⟨by decide, rfl, rfl, rfl, rfl⟩

/-- C4 (amended).  Exactly four entry points — `jobacct_g_init_struct`,
`jobacct_g_alloc`, `jobacct_g_init_slurmctld`, `jobacct_g_startpoll` —
attempt lazy initialization when no context exists (their resulting
global is whatever `_slurm_jobacct_init` produced, so a previously
failed initialization is retried on the next call to any of them); all
fourteen other entry points skip the attempt and leave the absent
context absent. -/
theorem claim_c4 (env : Env) :
    (jobacct_g_init_struct env none).g = (_slurm_jobacct_init env none).g ∧
    (jobacct_g_alloc env none).g = (_slurm_jobacct_init env none).g ∧
    (jobacct_g_init_slurmctld env none).g = (_slurm_jobacct_init env none).g ∧
    (jobacct_g_startpoll env none).g = (_slurm_jobacct_init env none).g ∧
    (jobacct_g_free env none).g = none ∧
    (jobacct_g_setinfo env none).g = none ∧
    (jobacct_g_getinfo env none).g = none ∧
    (jobacct_g_aggregate env none).g = none ∧
    (jobacct_g_pack env none).g = none ∧
    (jobacct_g_unpack env none).g = none ∧
    (jobacct_g_fini_slurmctld env none).g = none ∧
    (jobacct_g_job_start_slurmctld env none).g = none ∧
    (jobacct_g_job_complete_slurmctld env none).g = none ∧
    (jobacct_g_step_start_slurmctld env none).g = none ∧
    (jobacct_g_step_complete_slurmctld env none).g = none ∧
    (jobacct_g_suspend_slurmctld env none).g = none ∧
    (jobacct_g_endpoll env none).g = none ∧
    (jobacct_g_suspendpoll env none).g = none :=
  ⟨init_struct_g_eq env none, alloc_g_eq env none, init_slurmctld_g_eq env none,
   startpoll_g_eq env none, rfl, rfl, rfl, rfl, rfl, rfl,
   fini_slurmctld_g_eq env none, rfl, rfl, rfl, rfl, rfl, rfl, rfl⟩

/-- C5.  The claim says `_slurm_jobacct_context_destroy` always releases
the type-name copy and the context record, even when plugrack
destruction fails.  In fact a failing `plugrack_destroy` on a context
that owns a rack makes destroy return SLURM_ERROR immediately: neither
`xfree` is reached. -/
theorem claim_c5_cex :
    ctxRack.plugin_list = true ∧
    _slurm_jobacct_context_destroy envBadDestroy ctxRack
      = { rc := SLURM_ERROR, freedType := false, freedCtx := false } := by
  exact ⟨rfl, by decide⟩

/-- C5 (amended).  When the context owns a rack and plugrack destruction
fails, destroy reports SLURM_ERROR and releases neither the type-name
copy nor the context record; the two are released (with SLURM_SUCCESS)
exactly when plugrack destruction succeeds or no rack was ever
created. -/
theorem claim_c5 (env : Env) (c : Context)
    (h1 : c.plugin_list = true) (h2 : env.plugrackDestroyOk = false) :
    _slurm_jobacct_context_destroy env c
      = { rc := SLURM_ERROR, freedType := false, freedCtx := false } ∧
    _slurm_jobacct_context_destroy { env with plugrackDestroyOk := true } c
      = { rc := SLURM_SUCCESS, freedType := true, freedCtx := true } ∧
    _slurm_jobacct_context_destroy env { c with plugin_list := false }
      = { rc := SLURM_SUCCESS, freedType := true, freedCtx := true } := by
  refine ⟨?_, ?_, ?_⟩ <;> simp [_slurm_jobacct_context_destroy, h1, h2]

/-- C5 witness: the failing-plugrack environment and a rack-owning
context. -/
theorem claim_c5_witness :
    (ctxRack.plugin_list = true ∧ envBadDestroy.plugrackDestroyOk = false) ∧
    (_slurm_jobacct_context_destroy envBadDestroy ctxRack
       = { rc := SLURM_ERROR, freedType := false, freedCtx := false } ∧
     _slurm_jobacct_context_destroy { envBadDestroy with plugrackDestroyOk := true }
         ctxRack
       = { rc := SLURM_SUCCESS, freedType := true, freedCtx := true } ∧
     _slurm_jobacct_context_destroy envBadDestroy { ctxRack with plugin_list := false }
       = { rc := SLURM_SUCCESS, freedType := true, freedCtx := true }) :=
  ⟨⟨rfl, rfl⟩, claim_c5 envBadDestroy ctxRack rfl rfl⟩

/-- Lock discipline of `jobacct_g_init_struct`: balanced, dispatch only
under the lock. -/
theorem lockOk_init_struct (env : Env) (g : Option Context) :
    lockOk 0 (jobacct_g_init_struct env g).events = true := by
  simp only [jobacct_g_init_struct, init_events_eq]
  split
  · rfl
  · split <;> rfl

/-- Lock discipline of `jobacct_g_alloc`. -/
theorem lockOk_alloc (env : Env) (g : Option Context) :
    lockOk 0 (jobacct_g_alloc env g).events = true := by
  simp only [jobacct_g_alloc, init_events_eq]
  split
  · rfl
  · split <;> rfl

/-- Lock discipline of `jobacct_g_init_slurmctld`. -/
theorem lockOk_init_slurmctld (env : Env) (g : Option Context) :
    lockOk 0 (jobacct_g_init_slurmctld env g).events = true := by
  simp only [jobacct_g_init_slurmctld, init_events_eq]
  split
  · rfl
  · split <;> rfl

/-- Lock discipline of `jobacct_g_startpoll`. -/
theorem lockOk_startpoll (env : Env) (g : Option Context) :
    lockOk 0 (jobacct_g_startpoll env g).events = true := by
  simp only [jobacct_g_startpoll, init_events_eq]
  split
  · rfl
  · split <;> rfl

/-- Lock discipline of `jobacct_g_fini_slurmctld`. -/
theorem lockOk_fini_slurmctld (env : Env) (g : Option Context) :
    lockOk 0 (jobacct_g_fini_slurmctld env g).events = true := by
  cases g <;> (simp only [jobacct_g_fini_slurmctld]; split <;> rfl)

/-- C8.  The claim says the single lock is held across each entry
point's entire "ensure initialized, then dispatch" sequence.  In fact
`jobacct_g_init_struct` (and every other lazily-initializing entry
point) runs two separate critical sections: `_slurm_jobacct_init` locks
and unlocks, and the dispatch locks again — the concrete trace releases
the lock strictly before its last event. -/
theorem claim_c8_cex :
    (jobacct_g_init_struct envOk none).events
      = [Ev.lock, Ev.unlock, Ev.lock,
         Ev.dispatch "jobacct_p_init_struct", Ev.unlock] ∧
    interiorRelease 0 (jobacct_g_init_struct envOk none).events = true := by
  exact ⟨by decide, by decide⟩

/-- C8 (amended).  For every entry point and every state, the lock usage
is balanced and every backend dispatch — and the whole of the
lazy-initialization check, which is one critical section of its own —
happens while the single lock is held, so each backend invocation is
atomic with respect to other facade callers; but the lock is not held
across the combined ensure-init-then-dispatch sequence: an initializing
entry point releases it after initialization and re-acquires it for
dispatch, as the concrete `jobacct_g_init_struct` trace shows. -/
theorem claim_c8 (env : Env) (g : Option Context) :
    lockOk 0 (_slurm_jobacct_init env g).events = true ∧
    lockOk 0 (jobacct_g_init_struct env g).events = true ∧
    lockOk 0 (jobacct_g_alloc env g).events = true ∧
    lockOk 0 (jobacct_g_free env g).events = true ∧
    lockOk 0 (jobacct_g_setinfo env g).events = true ∧
    lockOk 0 (jobacct_g_getinfo env g).events = true ∧
    lockOk 0 (jobacct_g_aggregate env g).events = true ∧
    lockOk 0 (jobacct_g_pack env g).events = true ∧
    lockOk 0 (jobacct_g_unpack env g).events = true ∧
    lockOk 0 (jobacct_g_init_slurmctld env g).events = true ∧
    lockOk 0 (jobacct_g_fini_slurmctld env g).events = true ∧
    lockOk 0 (jobacct_g_job_start_slurmctld env g).events = true ∧
    lockOk 0 (jobacct_g_job_complete_slurmctld env g).events = true ∧
    lockOk 0 (jobacct_g_step_start_slurmctld env g).events = true ∧
    lockOk 0 (jobacct_g_step_complete_slurmctld env g).events = true ∧
    lockOk 0 (jobacct_g_suspend_slurmctld env g).events = true ∧
    lockOk 0 (jobacct_g_startpoll env g).events = true ∧
    lockOk 0 (jobacct_g_endpoll env g).events = true ∧
    lockOk 0 (jobacct_g_suspendpoll env g).events = true ∧
    interiorRelease 0 (jobacct_g_init_struct envOk none).events = true := by
  refine ⟨rfl, lockOk_init_struct env g, lockOk_alloc env g, ?_, ?_, ?_, ?_, ?_, ?_,
    lockOk_init_slurmctld env g, lockOk_fini_slurmctld env g,
    ?_, ?_, ?_, ?_, ?_, lockOk_startpoll env g, ?_, ?_, by decide⟩
    <;> cases g <;> rfl

end SlurmJobacct

namespace SlurmTimers

/-- Wrapping a `long` value already inside the 64-bit range is the
identity. -/
theorem wrap64_id (x : Int) (h1 : -9223372036854775808 ≤ x)
    (h2 : x < 9223372036854775808) : wrap64 x = x := by
  unfold wrap64; omega

/-- For valid timevals the wrapped `long` arithmetic of the delta
computation collapses to the exact mathematical value. -/
theorem diffDelta_exact (tv1 tv2 : Timeval)
    (hv1 : ValidTimeval tv1) (hv2 : ValidTimeval tv2) :
    diffDelta tv1 tv2
      = (tv2.tv_sec - tv1.tv_sec) * 1000000 + tv2.tv_usec - tv1.tv_usec := by
  obtain ⟨a1, a2, a3, a4⟩ := hv1
  obtain ⟨b1, b2, b3, b4⟩ := hv2
  unfold diffDelta wrap64
  omega

/-- C9.  For all valid timevals, `slurm_timer_diff_tv_str` stores
exactly `(tv2.tv_sec - tv1.tv_sec) * 1000000 + tv2.tv_usec -
tv1.tv_usec` into `*delta_t`, writes `"usec="` followed by that value
into `tv_str` (subject only to `snprintf`'s buffer-length truncation),
and both outputs are independent of the `from` and `limit` arguments,
which control logging only; `slurm_diff_tv_str` computes the identical
delta and string. -/
theorem claim_c9 (tv1 tv2 : Timeval) (len src2Len : Int)
    (src src2 : Option String) (limit limit2 : Int)
    (hv1 : ValidTimeval tv1) (hv2 : ValidTimeval tv2) :
    (slurm_timer_diff_tv_str tv1 tv2 len src limit).delta_t
      = (tv2.tv_sec - tv1.tv_sec) * 1000000 + tv2.tv_usec - tv1.tv_usec ∧
    (slurm_timer_diff_tv_str tv1 tv2 len src limit).tv_str
      = snprintfTrunc len
          ("usec=" ++ toString
            ((tv2.tv_sec - tv1.tv_sec) * 1000000 + tv2.tv_usec - tv1.tv_usec)) ∧
    (slurm_timer_diff_tv_str tv1 tv2 len src2 limit2).delta_t
      = (slurm_timer_diff_tv_str tv1 tv2 len src limit).delta_t ∧
    (slurm_timer_diff_tv_str tv1 tv2 len src2 limit2).tv_str
      = (slurm_timer_diff_tv_str tv1 tv2 len src limit).tv_str ∧
    (slurm_diff_tv_str tv1 tv2 src2Len src limit).delta_t
      = (tv2.tv_sec - tv1.tv_sec) * 1000000 + tv2.tv_usec - tv1.tv_usec ∧
    (slurm_diff_tv_str tv1 tv2 len src limit).tv_str
      = snprintfTrunc len
          ("usec=" ++ toString
            ((tv2.tv_sec - tv1.tv_sec) * 1000000 + tv2.tv_usec - tv1.tv_usec)) := by
  have hD := diffDelta_exact tv1 tv2 hv1 hv2
  refine ⟨hD, ?_, rfl, rfl, hD, ?_⟩
  · simp only [slurm_timer_diff_tv_str]
    rw [hD]
  · simp only [slurm_diff_tv_str]
    rw [hD]

/-- C9 witness: tv1 = 100 s 5 µs, tv2 = 102 s 3 µs, a 32-byte buffer,
logging enabled with the default limit versus disabled with limit 7. -/
theorem claim_c9_witness :
    ValidTimeval ⟨100, 5⟩ ∧ ValidTimeval ⟨102, 3⟩ ∧
    ((slurm_timer_diff_tv_str ⟨100, 5⟩ ⟨102, 3⟩ 32 (some "sched") 0).delta_t
       = ((102 : Int) - 100) * 1000000 + 3 - 5 ∧
     (slurm_timer_diff_tv_str ⟨100, 5⟩ ⟨102, 3⟩ 32 (some "sched") 0).tv_str
       = snprintfTrunc 32 ("usec=" ++ toString (((102 : Int) - 100) * 1000000 + 3 - 5)) ∧
     (slurm_timer_diff_tv_str ⟨100, 5⟩ ⟨102, 3⟩ 32 none 7).delta_t
       = (slurm_timer_diff_tv_str ⟨100, 5⟩ ⟨102, 3⟩ 32 (some "sched") 0).delta_t ∧
     (slurm_timer_diff_tv_str ⟨100, 5⟩ ⟨102, 3⟩ 32 none 7).tv_str
       = (slurm_timer_diff_tv_str ⟨100, 5⟩ ⟨102, 3⟩ 32 (some "sched") 0).tv_str ∧
     (slurm_diff_tv_str ⟨100, 5⟩ ⟨102, 3⟩ 64 (some "sched") 0).delta_t
       = ((102 : Int) - 100) * 1000000 + 3 - 5 ∧
     (slurm_diff_tv_str ⟨100, 5⟩ ⟨102, 3⟩ 32 (some "sched") 0).tv_str
       = snprintfTrunc 32 ("usec=" ++ toString (((102 : Int) - 100) * 1000000 + 3 - 5))) :=
  ⟨by decide, by decide,
   claim_c9 ⟨100, 5⟩ ⟨102, 3⟩ 32 64 (some "sched") none 0 7 (by decide) (by decide)⟩

/-- C10.  When the INOUT timeval's `tv_sec` is 0 and the clock read
succeeds, `slurm_timer_delta_tv` (and `slurm_delta_tv`) computes no
elapsed time: it stores the current time into the argument and returns
0 — a zero-second start value can never yield a nonzero delta. -/
theorem claim_c10 (now tv : Timeval) (h : tv.tv_sec = 0) :
    slurm_timer_delta_tv (some now) tv
      = { ret := 0, tv := ⟨now.tv_sec, now.tv_usec⟩ } ∧
    slurm_delta_tv (some now) tv
      = { ret := 0, tv := ⟨now.tv_sec, now.tv_usec⟩ } := by
  constructor <;> simp [slurm_timer_delta_tv, slurm_delta_tv, h]

/-- C10 witness: current time 50 s 7 µs, start value 0 s 3 µs. -/
theorem claim_c10_witness :
    (⟨0, 3⟩ : Timeval).tv_sec = 0 ∧
    (slurm_timer_delta_tv (some ⟨50, 7⟩) ⟨0, 3⟩ = { ret := 0, tv := ⟨50, 7⟩ } ∧
     slurm_delta_tv (some ⟨50, 7⟩) ⟨0, 3⟩ = { ret := 0, tv := ⟨50, 7⟩ }) :=
  ⟨rfl, claim_c10 ⟨50, 7⟩ ⟨0, 3⟩ rfl⟩

end SlurmTimers
